import Mathlib

/-!
Verification of the `tracing-forest` tree core (`src/tracing-forest/src/tree/mod.rs`).

Shallow embedding: the Rust types `Tree`, `Event`, `Span`, `Shared` and the
accessor methods are translated to Lean definitions.  `std::time::Duration`
values are modelled as `Nat` (a nonnegative nanosecond count).  `Duration`
subtraction in Rust is checked: `a - b` calls `checked_sub` and panics on
underflow, so it is modelled as an `Option Nat` (`none` is the unrecoverable
panic).  The `uuid` and `chrono` feature-gated fields of `Shared` are not
enabled in this slice and are omitted; `level` remains.
-/

namespace TracingForest

/-- Severity level (`tracing::Level`): TRACE < DEBUG < INFO < WARN < ERROR. -/
inductive Level where
  | trace
  | debug
  | info
  | warn
  | error
deriving DecidableEq

/-- `Shared`: header fields common to events and spans (`mod.rs` lines 89-104).
With the `uuid`/`chrono` features off, only `level` remains. -/
structure Shared where
  level : Level
deriving DecidableEq

/-- `Tag`: external value type attached to events, consumed opaquely by this
core (the spec treats it as an opaque value type). -/
structure Tag where
  text : String
deriving DecidableEq

/-- `Field`: one key-value pair of an event's field set. -/
structure Field where
  key : String
  value : String
deriving DecidableEq

/-- `Event` (`mod.rs` lines 44-58): shared header, optional message, tag and
ordered field sequence.  A single-constructor inductive so that the accessor
methods below can carry the source method names. -/
inductive Event where
  | mk (shared : Shared) (message : Option String) (tag : Tag) (fields : List Field)

mutual

/-- `Tree` (`mod.rs` lines 36-39): tagged union of a leaf `Event` and an
internal `Span`. -/
inductive Tree where
  | Event : Event → Tree
  | Span : Span → Tree

/-- `Span` (`mod.rs` lines 63-87): shared header, name, total duration,
inner duration (durations in nanoseconds as `Nat`), ordered children. -/
inductive Span where
  | mk : Shared → String → Nat → Nat → List Tree → Span

end

/-- Projection to `Event.shared`. -/
def Event.shared : Event → Shared
  | .mk sh _ _ _ => sh

/-- `Event::message` (`mod.rs` lines 208-210): `self.message.as_deref()` —
the stored optional message, returned by value (`as_deref` only changes the
borrow type, not the value: `None ↦ None`, `Some(s) ↦ Some(&s)`). -/
def Event.message : Event → Option String
  | .mk _ m _ _ => m

/-- `Event::tag` (`mod.rs` lines 216-218): reference to the stored tag. -/
def Event.tag : Event → Tag
  | .mk _ _ t _ => t

/-- `Event::fields` (`mod.rs` lines 221-223): view of the stored fields. -/
def Event.fields : Event → List Field
  | .mk _ _ _ fs => fs

/-- `Event::level` (`mod.rs` lines 203-205): `self.shared.level`. -/
def Event.level (e : Event) : Level :=
  e.shared.level

/-- Projection to `Span.shared`. -/
def Span.shared : Span → Shared
  | .mk sh _ _ _ _ => sh

/-- `Span::name` (`mod.rs` lines 257-259): the stored name. -/
def Span.name : Span → String
  | .mk _ n _ _ _ => n

/-- `Span::total_duration` (`mod.rs` lines 271-273): the stored total
duration. -/
def Span.total_duration : Span → Nat
  | .mk _ _ td _ _ => td

/-- `Span::inner_duration` (`mod.rs` lines 276-278): the stored inner
duration. -/
def Span.inner_duration : Span → Nat
  | .mk _ _ _ nd _ => nd

/-- `Span::children` (`mod.rs` lines 262-264): view of the stored children. -/
def Span.children : Span → List Tree
  | .mk _ _ _ _ cs => cs

/-- `Span::level` (`mod.rs` lines 252-254): `self.shared.level`. -/
def Span.level (s : Span) : Level :=
  s.shared.level

/-- Checked subtraction of durations, as performed by `std::time::Duration`'s
`Sub` implementation: `self.checked_sub(rhs).expect(..)`, i.e. the difference
when `b ≤ a` and a panic (modelled as `none`) on underflow. -/
def durationSub (a b : Nat) : Option Nat :=
  if b ≤ a then some (a - b) else none

/-- `Span::base_duration` (`mod.rs` lines 281-283):
`self.total_duration - self.inner_duration` with `Duration` subtraction. -/
def Span.base_duration (s : Span) : Option Nat :=
  durationSub s.total_duration s.inner_duration

/-- `Span::new` (`mod.rs` lines 227-235): the only `Span` constructor; zero
durations and no children. -/
def Span.new (shared : Shared) (name : String) : Span :=
  Span.mk shared name 0 0 []

/-- `ExpectedEventError` (`tree/error.rs`): payload-free error returned by
`Tree::event` on a `Span` variant. -/
inductive ExpectedEventError where
  | mk
deriving DecidableEq

/-- `ExpectedSpanError` (`tree/error.rs`): payload-free error returned by
`Tree::span` on an `Event` variant. -/
inductive ExpectedSpanError where
  | mk
deriving DecidableEq

/-- `Tree::event` (`mod.rs` lines 139-144): the inner event on the `Event`
variant, `ExpectedEventError` on the `Span` variant. -/
def Tree.event : Tree → Except ExpectedEventError TracingForest.Event
  | .Event e => .ok e
  | .Span _ => .error ExpectedEventError.mk

/-- `Tree::span` (`mod.rs` lines 179-184): the inner span on the `Span`
variant, `ExpectedSpanError` on the `Event` variant. -/
def Tree.span : Tree → Except ExpectedSpanError TracingForest.Span
  | .Event _ => .error ExpectedSpanError.mk
  | .Span s => .ok s

/-- Modelled from the spec: the child-append operation is not under `src/`
(the external accumulation layer pushes onto the `pub(crate) children` vector
while the span is open); per the spec, `children` is append-only during
construction, insertion order = temporal order of attachment. -/
def Span.appendChild (s : Span) (t : Tree) : Span :=
  match s with
  | .mk sh n td nd cs => .mk sh n td nd (cs ++ [t])

/-- Sample shared header used for concrete witnesses. -/
def sharedSample : Shared :=
  ⟨Level.info⟩

/-- A span violating the accumulation invariant: `total_duration = 0`,
`inner_duration = 1`. -/
def badSpan : Span :=
  Span.mk sharedSample "bad" 0 1 []

/-- A span satisfying the invariant: `total_duration = 100`,
`inner_duration = 40`. -/
def goodSpan : Span :=
  Span.mk sharedSample "good" 100 40 []

theorem children_appendChild (s : Span) (t : Tree) :
    (s.appendChild t).children = s.children ++ [t] := by
  cases s
  rfl

theorem children_foldl_appendChild (ts : List Tree) :
    ∀ s : Span, (ts.foldl Span.appendChild s).children = s.children ++ ts := by
  induction ts with
  | nil =>
      intro s
      simp
  | cons t ts ih =>
      intro s
      rw [List.foldl_cons, ih, children_appendChild, List.append_assoc]
      rfl

/-- Claim C1: whenever `inner_duration ≤ total_duration`, `base_duration`
succeeds and returns the nonnegative difference `total_duration -
inner_duration`; whenever `inner_duration > total_duration`, the subtraction
underflows and fails (an unrecoverable fault, modelled as `none`, neither
masked nor clamped to zero). -/
theorem base_duration_semantics (s : Span) :
    (s.inner_duration ≤ s.total_duration →
      s.base_duration = some (s.total_duration - s.inner_duration)) ∧
    (s.total_duration < s.inner_duration → s.base_duration = none) := by
  constructor
  · intro h
    simp [Span.base_duration, durationSub, h]
  · intro h
    simp [Span.base_duration, durationSub, Nat.not_le_of_lt h]

/-- Witness for C1 at concrete spans: `goodSpan` (100, 40) satisfies the
invariant and gets the difference; `badSpan` (0, 1) violates it and faults. -/
theorem base_duration_semantics_witness :
    goodSpan.inner_duration ≤ goodSpan.total_duration ∧
    goodSpan.base_duration = some (goodSpan.total_duration - goodSpan.inner_duration) ∧
    badSpan.total_duration < badSpan.inner_duration ∧
    badSpan.base_duration = none :=
  ⟨by decide, (base_duration_semantics goodSpan).1 (by decide), by decide,
    (base_duration_semantics badSpan).2 (by decide)⟩

/-- Claim C2, counterexample: for the concrete span with `total_duration = 0`
and `inner_duration = 1`, there is no value `b` with `base_duration() = b` and
`total_duration() = inner_duration() + b` — the subtraction faults, so the
identity does not hold for *all* `Span` values. -/
theorem total_eq_inner_add_base_cex :
    ¬ ∃ b : Nat, badSpan.base_duration = some b ∧
      badSpan.total_duration = badSpan.inner_duration + b := by
  rintro ⟨b, hb, -⟩
  rw [show badSpan.base_duration = none from rfl] at hb
  exact Option.noConfusion hb

/-- Claim C2, amended: for every `Span` whose `inner_duration` is at most its
`total_duration` (the documented invariant, under which `base_duration`
succeeds), `total_duration() = inner_duration() + base_duration()`. -/
theorem total_eq_inner_add_base (s : Span)
    (h : s.inner_duration ≤ s.total_duration) :
    ∃ b : Nat, s.base_duration = some b ∧
      s.total_duration = s.inner_duration + b := by
  refine ⟨s.total_duration - s.inner_duration, ?_, ?_⟩
  · simp [Span.base_duration, durationSub, h]
  · omega

/-- Witness for the amended C2 at the concrete span (100, 40). -/
theorem total_eq_inner_add_base_witness :
    goodSpan.inner_duration ≤ goodSpan.total_duration ∧
    ∃ b : Nat, goodSpan.base_duration = some b ∧
      goodSpan.total_duration = goodSpan.inner_duration + b :=
  ⟨by decide, total_eq_inner_add_base goodSpan (by decide)⟩

/-- Claim C3: `Tree::event()` returns `Ok` with the inner `Event` exactly when
the variant is `Event`, and `Err(ExpectedEventError)` exactly when the variant
is `Span` (the embedding is a pure projection: no consumption, mutation or
side effect). -/
theorem tree_event_spec (t : Tree) :
    (∀ e, t.event = Except.ok e ↔ t = Tree.Event e) ∧
    (t.event = Except.error ExpectedEventError.mk ↔ ∃ s, t = Tree.Span s) := by
  cases t <;> simp [Tree.event]

/-- Claim C4: `Tree::span()` returns `Ok` with the inner `Span` exactly when
the variant is `Span`, and `Err(ExpectedSpanError)` exactly when the variant
is `Event` (a pure projection: no consumption or mutation). -/
theorem tree_span_spec (t : Tree) :
    (∀ s, t.span = Except.ok s ↔ t = Tree.Span s) ∧
    (t.span = Except.error ExpectedSpanError.mk ↔ ∃ e, t = Tree.Event e) := by
  cases t <;> simp [Tree.span]

/-- Claim C5, counterexample: for the concrete span with `total_duration = 0`
and `inner_duration = 1`, `base_duration()` does not silently produce a
wrapped value — it produces no value at all (`Duration` subtraction is
checked and panics on underflow). -/
theorem base_duration_wrap_cex :
    ¬ ∃ n : Nat, badSpan.base_duration = some n := by
  rintro ⟨n, hn⟩
  rw [show badSpan.base_duration = none from rfl] at hn
  exact Option.noConfusion hn

/-- Claim C5, amended: when `inner_duration > total_duration`,
`base_duration()` performs the subtraction with no defensive check of its
own, and the underflow makes the subtraction fail (an unrecoverable panic,
modelled as `none`) rather than silently producing a wrapped value or
raising a typed error. -/
theorem base_duration_underflow_fails (s : Span)
    (h : s.total_duration < s.inner_duration) :
    s.base_duration = none := by
  simp [Span.base_duration, durationSub, Nat.not_le_of_lt h]

/-- Witness for the amended C5 at the concrete span (0, 1). -/
theorem base_duration_underflow_fails_witness :
    badSpan.total_duration < badSpan.inner_duration ∧
    badSpan.base_duration = none :=
  ⟨by decide, base_duration_underflow_fails badSpan (by decide)⟩

/-- Claim C6: for every shared header and name, `Span::new(shared, name)`
produces a span with zero `total_duration`, zero `inner_duration`, empty
`children`, and consequently `base_duration` zero. -/
theorem span_new_spec (shared : Shared) (name : String) :
    (Span.new shared name).total_duration = 0 ∧
    (Span.new shared name).inner_duration = 0 ∧
    (Span.new shared name).children = [] ∧
    (Span.new shared name).base_duration = some 0 :=
  ⟨rfl, rfl, rfl, rfl⟩

/-- Claim C7: round-trip — wrapping any `Event` as `Tree::Event` and
extracting with `Tree::event()` succeeds and yields the exact event, with
`message()`, `tag()`, `level()` and `fields()` identical to the input. -/
theorem event_roundtrip (e : Event) :
    ∃ e', (Tree.Event e).event = Except.ok e' ∧ e' = e ∧
      e'.message = e.message ∧ e'.tag = e.tag ∧
      e'.level = e.level ∧ e'.fields = e.fields :=
  ⟨e, rfl, rfl, rfl, rfl, rfl, rfl⟩

/-- Claim C8: starting from `Span::new` and appending any sequence of
children, `children()` returns the appended nodes in exactly the order they
were appended, and its length equals the number of append operations. -/
theorem children_append_order (shared : Shared) (name : String)
    (ts : List Tree) :
    (ts.foldl Span.appendChild (Span.new shared name)).children = ts ∧
    (ts.foldl Span.appendChild (Span.new shared name)).children.length
      = ts.length := by
  have h := children_foldl_appendChild ts (Span.new shared name)
  rw [show (Span.new shared name).children = [] from rfl] at h
  rw [List.nil_append] at h
  exact ⟨h, by rw [h]⟩

/-- Claim C9: on every `Tree`, exactly one of `event()` and `span()`
succeeds — `event()` is `Ok` iff `span()` is `Err(ExpectedSpanError)`,
`span()` is `Ok` iff `event()` is `Err(ExpectedEventError)`, and they are
never both `Ok`. -/
theorem tree_extraction_exclusive (t : Tree) :
    ((∃ e, t.event = Except.ok e) ↔ t.span = Except.error ExpectedSpanError.mk) ∧
    ((∃ s, t.span = Except.ok s) ↔ t.event = Except.error ExpectedEventError.mk) ∧
    ¬ ((∃ e, t.event = Except.ok e) ∧ (∃ s, t.span = Except.ok s)) := by
  cases t <;> simp [Tree.event, Tree.span]

/-- Claim C10: `Event::message()` returns `None` exactly when no message is
stored, and an event whose stored message is the empty string yields
`Some("")`, not `None` — a present-but-empty message is distinguishable from
an absent one. -/
theorem event_message_spec (sh : Shared) (tg : Tag) (fs : List Field) :
    (∀ m : Option String, (Event.mk sh m tg fs).message = none ↔ m = none) ∧
    (Event.mk sh (some "") tg fs).message = some "" ∧
    (Event.mk sh (some "") tg fs).message ≠ none :=
  ⟨fun _ => Iff.rfl, rfl, fun h => Option.noConfusion h⟩

end TracingForest
